import Mathlib

/-!
Shallow embedding of the study-timer action handlers.

The source defines seven Astro actions (`createPreset`, `updatePreset`,
`listPresets`, `startSession`, `completeSession`, `addInterval`,
`listIntervals`) over three tables (`TimerPresets`, `FocusSessions`,
`FocusIntervals`).  Each handler first resolves the authenticated user via
`requireUser`, then performs reads/writes against the store.

The store is modelled as lists of rows plus autoincrement counters.  Dates
are modelled as `Int` timestamps; every handler takes the current time
`now` explicitly (`new Date()` in the source).  The free-form `meta` JSON
column is modelled as an opaque `Option String`.  Handler results are
`Except ActionErrorCode`; an error means the handler threw before writing,
so no new store is produced.

JavaScript truthiness checks in the source (`if (input.isDefault)`,
`if (input.presetId)`) are modelled exactly: `some false`/`none` and
`some 0`/`none` are falsy.
-/

namespace StudyTimer

inductive ActionErrorCode where
  | UNAUTHORIZED
  | NOT_FOUND
deriving Repr, DecidableEq

inductive SessionStatus where
  | in_progress
  | completed
  | cancelled
deriving Repr, DecidableEq

inductive IntervalType where
  | focus
  | brk
  | long_break
deriving Repr, DecidableEq

/-- A row of the `TimerPresets` table. -/
structure Preset where
  id : Int
  ownerId : String
  name : String
  focusMinutes : Int
  shortBreakMinutes : Int
  longBreakMinutes : Option Int
  cyclesBeforeLongBreak : Option Int
  cyclesPerBlock : Option Int
  isDefault : Bool
  createdAt : Int
  updatedAt : Int
deriving Repr, DecidableEq

/-- A row of the `FocusSessions` table. -/
structure Session where
  id : Int
  userId : String
  presetId : Option Int
  label : Option String
  plannedFocusMinutes : Option Int
  actualFocusMinutes : Int
  actualBreakMinutes : Int
  plannedCycles : Option Int
  completedCycles : Int
  status : SessionStatus
  startedAt : Int
  endedAt : Option Int
  meta : Option String
deriving Repr, DecidableEq

/-- A row of the `FocusIntervals` table. -/
structure Interval where
  id : Int
  sessionId : Int
  type : IntervalType
  startedAt : Int
  endedAt : Option Int
  durationSeconds : Int
  completed : Bool
deriving Repr, DecidableEq

/-- The relational store: the three tables plus their autoincrement
primary-key counters. -/
structure Store where
  presets : List Preset
  sessions : List Session
  intervals : List Interval
  nextPresetId : Int
  nextSessionId : Int
  nextIntervalId : Int
deriving Repr, DecidableEq

/-- JS truthiness of an optional boolean: `undefined` and `false` are falsy. -/
def truthyBool (o : Option Bool) : Bool := o.getD false

/-- JS truthiness of an optional integer: `undefined` and `0` are falsy. -/
def truthyInt : Option Int → Bool
  | none => false
  | some n => n != 0

/-- Partial-update semantics for an optional column: a supplied value
replaces the stored one, an absent value keeps it. -/
def mergeOpt (inp : Option α) (cur : Option α) : Option α :=
  match inp with
  | some v => some v
  | none => cur

/-- `requireUser`: resolve the signed-in user from the request context, or
throw `UNAUTHORIZED`. -/
def requireUser : Option String → Except ActionErrorCode String
  | none => Except.error ActionErrorCode.UNAUTHORIZED
  | some u => Except.ok u

/-- The `db.select().from(TimerPresets).where(and(eq(id, i),
eq(ownerId, u))).limit(1)` pattern followed by `[row]` destructuring. -/
def findOwnedPreset (l : List Preset) (i : Int) (u : String) : Option Preset :=
  (l.filter (fun p => p.id == i && p.ownerId == u)).head?

/-- The `db.select().from(FocusSessions).where(and(eq(id, i),
eq(userId, u))).limit(1)` pattern followed by `[row]` destructuring. -/
def findOwnedSession (l : List Session) (i : Int) (u : String) : Option Session :=
  (l.filter (fun x => x.id == i && x.userId == u)).head?

/-- Input of `createPreset` (zod-validated shape; `none` = field absent). -/
structure CreatePresetInput where
  name : String
  focusMinutes : Option Int
  shortBreakMinutes : Option Int
  longBreakMinutes : Option Int
  cyclesBeforeLongBreak : Option Int
  cyclesPerBlock : Option Int
  isDefault : Option Bool
deriving Repr, DecidableEq

/-- The `db.update(TimerPresets).set({isDefault: false, updatedAt: new
Date()}).where(eq(ownerId, user.id))` statement of `createPreset`: clears
`isDefault` and refreshes `updatedAt` on every preset of the owner. -/
def clearOwnerDefaults (user : String) (now : Int) (l : List Preset) : List Preset :=
  l.map (fun p =>
    if p.ownerId == user then { p with isDefault := false, updatedAt := now }
    else p)

/-- The `db.update(TimerPresets).set({isDefault: false, updatedAt: new
Date()}).where(and(eq(ownerId, user.id), eq(isDefault, true)))` statement
of `updatePreset`: clears only the owner's currently-default presets. -/
def clearOwnerActiveDefaults (user : String) (now : Int) (l : List Preset) :
    List Preset :=
  l.map (fun p =>
    if p.ownerId == user && p.isDefault then
      { p with isDefault := false, updatedAt := now }
    else p)

/-- The `.values({...})` payload of `createPreset`'s insert: input fields,
table defaults for the absent ones (`focusMinutes` 25, `shortBreakMinutes`
5, `isDefault` false), `createdAt = updatedAt = now`, and the
autoincrement id. -/
def newPresetRow (user : String) (input : CreatePresetInput) (now : Int)
    (nextId : Int) : Preset :=
  { id := nextId
    ownerId := user
    name := input.name
    focusMinutes := input.focusMinutes.getD 25
    shortBreakMinutes := input.shortBreakMinutes.getD 5
    longBreakMinutes := input.longBreakMinutes
    cyclesBeforeLongBreak := input.cyclesBeforeLongBreak
    cyclesPerBlock := input.cyclesPerBlock
    isDefault := input.isDefault.getD false
    createdAt := now
    updatedAt := now }

/-- Body of the `createPreset` handler after `requireUser` has resolved
`user`: if `input.isDefault` is truthy, clear `isDefault` (and refresh
`updatedAt`) on every preset of the caller, then insert the new preset. -/
def createPresetAuthed (user : String) (input : CreatePresetInput) (now : Int)
    (s : Store) : Except ActionErrorCode (Preset × Store) :=
    let presets1 :=
      if truthyBool input.isDefault then clearOwnerDefaults user now s.presets
      else s.presets
    let preset : Preset := newPresetRow user input now s.nextPresetId
    Except.ok (preset,
      { s with presets := presets1 ++ [preset], nextPresetId := s.nextPresetId + 1 })

/-- `createPreset` handler. -/
def createPreset (ctx : Option String) (input : CreatePresetInput) (now : Int)
    (s : Store) : Except ActionErrorCode (Preset × Store) :=
  match requireUser ctx with
  | Except.error e => Except.error e
  | Except.ok user => createPresetAuthed user input now s

/-- Input of `updatePreset` (zod-validated shape; `none` = field absent). -/
structure UpdatePresetInput where
  id : Int
  name : Option String
  focusMinutes : Option Int
  shortBreakMinutes : Option Int
  longBreakMinutes : Option Int
  cyclesBeforeLongBreak : Option Int
  cyclesPerBlock : Option Int
  isDefault : Option Bool
deriving Repr, DecidableEq

/-- `Object.keys(updateData).length === 0`: every optional field absent. -/
def updateDataIsEmpty (i : UpdatePresetInput) : Bool :=
  i.name.isNone && i.focusMinutes.isNone && i.shortBreakMinutes.isNone &&
  i.longBreakMinutes.isNone && i.cyclesBeforeLongBreak.isNone &&
  i.cyclesPerBlock.isNone && i.isDefault.isNone

/-- Applying `updateData` (every defined input field) plus a fresh
`updatedAt` to a preset row. -/
def applyPresetUpdate (i : UpdatePresetInput) (now : Int) (p : Preset) : Preset :=
  { p with
    name := i.name.getD p.name
    focusMinutes := i.focusMinutes.getD p.focusMinutes
    shortBreakMinutes := i.shortBreakMinutes.getD p.shortBreakMinutes
    longBreakMinutes := mergeOpt i.longBreakMinutes p.longBreakMinutes
    cyclesBeforeLongBreak := mergeOpt i.cyclesBeforeLongBreak p.cyclesBeforeLongBreak
    cyclesPerBlock := mergeOpt i.cyclesPerBlock p.cyclesPerBlock
    isDefault := i.isDefault.getD p.isDefault
    updatedAt := now }

/-- The `db.update(TimerPresets).set({...updateData, updatedAt: new
Date()}).where(and(eq(id, input.id), eq(ownerId, user.id)))` statement of
`updatePreset`, applied row-wise to the table. -/
def applyUpdateWhere (input : UpdatePresetInput) (user : String) (now : Int)
    (l : List Preset) : List Preset :=
  l.map (fun p =>
    if p.id == input.id && p.ownerId == user then applyPresetUpdate input now p
    else p)

/-- Body of the `updatePreset` handler after `requireUser`: select the
preset by id and owner (NotFound otherwise); if `rest.isDefault` is
truthy, clear the caller's presets that currently have `isDefault = true`;
if no field was supplied return the existing row; otherwise update the
selected row and return it. -/
def updatePresetAuthed (user : String) (input : UpdatePresetInput) (now : Int)
    (s : Store) : Except ActionErrorCode (Option Preset × Store) :=
    match findOwnedPreset s.presets input.id user with
    | none => Except.error ActionErrorCode.NOT_FOUND
    | some existing =>
      let presets1 :=
        if truthyBool input.isDefault then
          clearOwnerActiveDefaults user now s.presets
        else s.presets
      if updateDataIsEmpty input then
        Except.ok (some existing, { s with presets := presets1 })
      else
        let presets2 := applyUpdateWhere input user now presets1
        Except.ok (findOwnedPreset presets2 input.id user,
           { s with presets := presets2 })

/-- `updatePreset` handler. -/
def updatePreset (ctx : Option String) (input : UpdatePresetInput) (now : Int)
    (s : Store) : Except ActionErrorCode (Option Preset × Store) :=
  match requireUser ctx with
  | Except.error e => Except.error e
  | Except.ok user => updatePresetAuthed user input now s

/-- `listPresets` handler: all presets owned by the caller. -/
def listPresets (ctx : Option String) (s : Store) :
    Except ActionErrorCode (List Preset × Store) :=
  match requireUser ctx with
  | Except.error e => Except.error e
  | Except.ok user =>
    Except.ok (s.presets.filter (fun p => p.ownerId == user), s)

/-- Input of `startSession` (zod-validated shape; `none` = field absent). -/
structure StartSessionInput where
  presetId : Option Int
  label : Option String
  plannedFocusMinutes : Option Int
  plannedCycles : Option Int
  meta : Option String
deriving Repr, DecidableEq

/-- Body of the `startSession` handler after `requireUser`: if
`input.presetId` is truthy it must resolve to a preset owned by the caller
(NotFound otherwise); then insert a new session with
`status = in_progress`, `startedAt = now` and counters at their table
defaults. -/
def startSessionAuthed (user : String) (input : StartSessionInput) (now : Int)
    (s : Store) : Except ActionErrorCode (Session × Store) :=
    let session : Session :=
      { id := s.nextSessionId
        userId := user
        presetId := input.presetId
        label := input.label
        plannedFocusMinutes := input.plannedFocusMinutes
        actualFocusMinutes := 0
        actualBreakMinutes := 0
        plannedCycles := input.plannedCycles
        completedCycles := 0
        status := SessionStatus.in_progress
        startedAt := now
        endedAt := none
        meta := input.meta }
    let s2 : Store :=
      { s with sessions := s.sessions ++ [session],
               nextSessionId := s.nextSessionId + 1 }
    if truthyInt input.presetId then
      match findOwnedPreset s.presets (input.presetId.getD 0) user with
      | none => Except.error ActionErrorCode.NOT_FOUND
      | some _ => Except.ok (session, s2)
    else Except.ok (session, s2)

/-- `startSession` handler. -/
def startSession (ctx : Option String) (input : StartSessionInput) (now : Int)
    (s : Store) : Except ActionErrorCode (Session × Store) :=
  match requireUser ctx with
  | Except.error e => Except.error e
  | Except.ok user => startSessionAuthed user input now s

/-- Input of `completeSession` (zod-validated shape; `none` = field absent;
the `status` enum admits all three values, including `in_progress`). -/
structure CompleteSessionInput where
  id : Int
  actualFocusMinutes : Option Int
  actualBreakMinutes : Option Int
  completedCycles : Option Int
  status : Option SessionStatus
  meta : Option String
deriving Repr, DecidableEq

/-- The `.set({...})` payload of `completeSession`, applied to one matched
row `x`: each optional counter is the supplied value or the selected
`session`'s prior value, `status` is the supplied value or `completed`,
`endedAt` is `now`, `meta` the supplied value or the prior one. -/
def completeRow (input : CompleteSessionInput) (session : Session) (now : Int)
    (x : Session) : Session :=
  { x with
    actualFocusMinutes := input.actualFocusMinutes.getD session.actualFocusMinutes
    actualBreakMinutes := input.actualBreakMinutes.getD session.actualBreakMinutes
    completedCycles := input.completedCycles.getD session.completedCycles
    status := input.status.getD SessionStatus.completed
    endedAt := some now
    meta := mergeOpt input.meta session.meta }

/-- Body of the `completeSession` handler after `requireUser`: select the
session by id and user (NotFound otherwise); then update every session row
with that id, setting each optional counter to the supplied value or the
selected row's prior value, `status` to the supplied value or `completed`,
and `endedAt = now`; return the first updated row. -/
def completeSessionAuthed (user : String) (input : CompleteSessionInput) (now : Int)
    (s : Store) : Except ActionErrorCode (Option Session × Store) :=
    match findOwnedSession s.sessions input.id user with
    | none => Except.error ActionErrorCode.NOT_FOUND
    | some session =>
      let sessions2 := s.sessions.map (fun x =>
        if x.id == input.id then completeRow input session now x else x)
      Except.ok ((sessions2.filter (fun x => x.id == input.id)).head?,
        { s with sessions := sessions2 })

/-- `completeSession` handler. -/
def completeSession (ctx : Option String) (input : CompleteSessionInput) (now : Int)
    (s : Store) : Except ActionErrorCode (Option Session × Store) :=
  match requireUser ctx with
  | Except.error e => Except.error e
  | Except.ok user => completeSessionAuthed user input now s

/-- Input of `addInterval` (zod-validated shape; `none` = field absent). -/
structure AddIntervalInput where
  sessionId : Int
  type : Option IntervalType
  startedAt : Option Int
  endedAt : Option Int
  durationSeconds : Option Int
  completed : Option Bool
deriving Repr, DecidableEq

/-- Body of the `addInterval` handler after `requireUser`: resolve the
parent session by id and user (NotFound otherwise); then insert the
interval with its table defaults for absent fields. -/
def addIntervalAuthed (user : String) (input : AddIntervalInput) (now : Int)
    (s : Store) : Except ActionErrorCode (Interval × Store) :=
    match findOwnedSession s.sessions input.sessionId user with
    | none => Except.error ActionErrorCode.NOT_FOUND
    | some _ =>
      let interval : Interval :=
        { id := s.nextIntervalId
          sessionId := input.sessionId
          type := input.type.getD IntervalType.focus
          startedAt := input.startedAt.getD now
          endedAt := input.endedAt
          durationSeconds := input.durationSeconds.getD 0
          completed := input.completed.getD false }
      Except.ok (interval,
        { s with intervals := s.intervals ++ [interval],
                 nextIntervalId := s.nextIntervalId + 1 })

/-- `addInterval` handler. -/
def addInterval (ctx : Option String) (input : AddIntervalInput) (now : Int)
    (s : Store) : Except ActionErrorCode (Interval × Store) :=
  match requireUser ctx with
  | Except.error e => Except.error e
  | Except.ok user => addIntervalAuthed user input now s

/-- Input of `listIntervals`. -/
structure ListIntervalsInput where
  sessionId : Int
deriving Repr, DecidableEq

/-- Body of the `listIntervals` handler after `requireUser`: resolve the
parent session by id and user (NotFound otherwise); then return all
intervals of that session. -/
def listIntervalsAuthed (user : String) (input : ListIntervalsInput)
    (s : Store) : Except ActionErrorCode (List Interval × Store) :=
    match findOwnedSession s.sessions input.sessionId user with
    | none => Except.error ActionErrorCode.NOT_FOUND
    | some _ =>
      Except.ok (s.intervals.filter (fun iv => iv.sessionId == input.sessionId), s)

/-- `listIntervals` handler. -/
def listIntervals (ctx : Option String) (input : ListIntervalsInput)
    (s : Store) : Except ActionErrorCode (List Interval × Store) :=
  match requireUser ctx with
  | Except.error e => Except.error e
  | Except.ok user => listIntervalsAuthed user input s

/-! ### Demo fixtures used by witnesses and counterexamples -/

/-- A preset owned by `"alice"`, currently the default. -/
def demoPreset : Preset :=
  { id := 1, ownerId := "alice", name := "Classic", focusMinutes := 25,
    shortBreakMinutes := 5, longBreakMinutes := none,
    cyclesBeforeLongBreak := none, cyclesPerBlock := none, isDefault := true,
    createdAt := 0, updatedAt := 0 }

/-- An in-progress session of `"alice"` with nonzero counters. -/
def demoSession : Session :=
  { id := 1, userId := "alice", presetId := none, label := some "evening",
    plannedFocusMinutes := some 25, actualFocusMinutes := 7,
    actualBreakMinutes := 2, plannedCycles := some 4, completedCycles := 1,
    status := SessionStatus.in_progress, startedAt := 0, endedAt := none,
    meta := some "tag" }

/-- A store holding `demoPreset` and `demoSession`. -/
def demoStore : Store :=
  { presets := [demoPreset], sessions := [demoSession], intervals := [],
    nextPresetId := 2, nextSessionId := 2, nextIntervalId := 1 }

/-- A session of `"alice"` already in the terminal state `completed`. -/
def demoDoneSession : Session :=
  { id := 1, userId := "alice", presetId := none, label := none,
    plannedFocusMinutes := none, actualFocusMinutes := 20,
    actualBreakMinutes := 5, plannedCycles := none, completedCycles := 2,
    status := SessionStatus.completed, startedAt := 0, endedAt := some 4,
    meta := none }

/-- A store holding only `demoDoneSession`. -/
def demoDoneStore : Store :=
  { presets := [], sessions := [demoDoneSession], intervals := [],
    nextPresetId := 1, nextSessionId := 2, nextIntervalId := 1 }

/-- A `createPreset` input asking for a new default preset. -/
def demoCreateDeepWork : CreatePresetInput :=
  { name := "Deep Work", focusMinutes := some 50, shortBreakMinutes := none,
    longBreakMinutes := none, cyclesBeforeLongBreak := none,
    cyclesPerBlock := none, isDefault := some true }

/-- An `updatePreset` input making preset 1 the default again. -/
def demoUpdateMakeDefault : UpdatePresetInput :=
  { id := 1, name := none, focusMinutes := none, shortBreakMinutes := none,
    longBreakMinutes := none, cyclesBeforeLongBreak := none,
    cyclesPerBlock := none, isDefault := some true }

/-! ### Sequences of preset calls -/

/-- One preset-mutating call: `createPreset` or `updatePreset`, with its
input and the wall-clock time of the call. -/
inductive PresetOp where
  | create (input : CreatePresetInput) (now : Int)
  | update (input : UpdatePresetInput) (now : Int)

/-- Run one preset call made by user `u`; a call that fails throws before
any write, so it leaves the store unchanged. -/
def runPresetOp (u : String) (s : Store) : PresetOp → Store
  | PresetOp.create input now =>
    match createPreset (some u) input now s with
    | Except.ok (_, s2) => s2
    | Except.error _ => s
  | PresetOp.update input now =>
    match updatePreset (some u) input now s with
    | Except.ok (_, s2) => s2
    | Except.error _ => s

/-- Run a sequence of preset calls made by user `u`, left to right. -/
def runPresetOps (u : String) (s : Store) (ops : List PresetOp) : Store :=
  ops.foldl (runPresetOp u) s

/-- Number of presets owned by `u` that have `isDefault = true`. -/
def defaultCount (u : String) (l : List Preset) : Nat :=
  l.countP (fun p => p.ownerId == u && p.isDefault)

/-- Primary-key well-formedness of the preset table: ids are pairwise
distinct and strictly below the autoincrement counter. -/
def presetTableWF (s : Store) : Prop :=
  (s.presets.map Preset.id).Nodup ∧ ∀ p ∈ s.presets, p.id < s.nextPresetId

/-! ### General helper lemmas -/

theorem head?_mem {α : Type} {l : List α} {a : α} (h : l.head? = some a) :
    a ∈ l := by
  cases l with
  | nil => simp at h
  | cons x xs =>
    simp only [List.head?_cons, Option.some.injEq] at h
    simp [h]

/-- A select by id-and-owner that hits gives a member satisfying the
filter predicate. -/
theorem findOwnedPreset_some {l : List Preset} {i : Int} {u : String} {a : Preset}
    (h : findOwnedPreset l i u = some a) :
    a ∈ l ∧ (a.id == i && a.ownerId == u) = true := by
  have := head?_mem h
  exact List.mem_filter.mp this

theorem findOwnedSession_some {l : List Session} {i : Int} {u : String} {a : Session}
    (h : findOwnedSession l i u = some a) :
    a ∈ l ∧ (a.id == i && a.userId == u) = true := by
  have := head?_mem h
  exact List.mem_filter.mp this

/-- Selecting from a row-wise-mapped table, when the map preserves id and
owner, is the map of the selection. -/
theorem findOwnedPreset_map (g : Preset → Preset)
    (hid : ∀ p, (g p).id = p.id) (hown : ∀ p, (g p).ownerId = p.ownerId)
    (l : List Preset) (i : Int) (u : String) :
    findOwnedPreset (l.map g) i u = (findOwnedPreset l i u).map g := by
  unfold findOwnedPreset
  rw [List.filter_map]
  have he : List.filter ((fun p => p.id == i && p.ownerId == u) ∘ g) l
      = List.filter (fun p => p.id == i && p.ownerId == u) l :=
    List.filter_congr (fun x _ => by simp [Function.comp, hid, hown])
  rw [he, List.head?_map]

/-- In a table whose ids are pairwise distinct, at most one row matches a
given id. -/
theorem countP_key_le_one {α β : Type} [DecidableEq β] (f : α → β) (l : List α)
    (hnd : (l.map f).Nodup) (v : β) :
    l.countP (fun x => f x == v) ≤ 1 := by
  have h1 : l.countP (fun x => f x == v) = (l.map f).countP (fun y => y == v) := by
    rw [List.countP_map]
    rfl
  rw [h1, ← List.count_eq_countP]
  exact List.nodup_iff_count_le_one.mp hnd v

/-- In a table whose ids are pairwise distinct, a select by id-and-owner
that hits makes the select by id alone return exactly that row. -/
theorem filter_key_eq_of_nodup {α β : Type} [DecidableEq β] (f : α → β)
    (q : α → Bool) (l : List α) (v : β) (a : α)
    (hnd : (l.map f).Nodup)
    (h : (l.filter (fun x => f x == v && q x)).head? = some a) :
    l.filter (fun x => f x == v) = [a] := by
  induction l with
  | nil => simp at h
  | cons x xs ih =>
    simp only [List.map_cons, List.nodup_cons] at hnd
    by_cases hx : (f x == v) = true
    · have hfx : f x = v := by simpa using hx
      have hxs : xs.filter (fun y => f y == v) = [] := by
        rw [List.filter_eq_nil_iff]
        intro y hy
        simp only [beq_iff_eq]
        intro hfy
        refine hnd.1 ?_
        rw [hfx, ← hfy]
        exact List.mem_map_of_mem f hy
      by_cases hq : q x = true
      · have hfe : List.filter (fun z => f z == v && q z) (x :: xs) =
            x :: xs.filter (fun z => f z == v && q z) := by
          rw [List.filter_cons, if_pos (by simp [hx, hq])]
        rw [hfe, List.head?_cons, Option.some.injEq] at h
        rw [List.filter_cons, if_pos hx, hxs, h]
      · have hxs2 : xs.filter (fun z => f z == v && q z) = [] := by
          rw [List.filter_eq_nil_iff]
          intro y hy hcon
          have : (f y == v) = true := by
            cases hb : (f y == v) <;> simp [hb] at hcon ⊢
          exact (List.filter_eq_nil_iff.mp hxs) y hy this
        rw [List.filter_cons, if_neg (by simp [hq]), hxs2] at h
        simp at h
    · have hfe : List.filter (fun z => f z == v && q z) (x :: xs) =
          xs.filter (fun z => f z == v && q z) := by
        rw [List.filter_cons, if_neg (by simp [hx])]
      rw [hfe] at h
      rw [List.filter_cons, if_neg hx]
      exact ih hnd.2 h

/-! ### C8 -/

/-- C8: every operation called without an authenticated identity fails with
`UNAUTHORIZED`; since the handler throws before touching the store, no
store is produced and the store is unchanged. -/
theorem C8_unauthenticated_fails_unauthorized :
    ∀ (s : Store) (now : Int) (i1 : CreatePresetInput) (i2 : UpdatePresetInput)
      (i4 : StartSessionInput) (i5 : CompleteSessionInput)
      (i6 : AddIntervalInput) (i7 : ListIntervalsInput),
      createPreset none i1 now s = Except.error ActionErrorCode.UNAUTHORIZED ∧
      updatePreset none i2 now s = Except.error ActionErrorCode.UNAUTHORIZED ∧
      listPresets none s = Except.error ActionErrorCode.UNAUTHORIZED ∧
      startSession none i4 now s = Except.error ActionErrorCode.UNAUTHORIZED ∧
      completeSession none i5 now s = Except.error ActionErrorCode.UNAUTHORIZED ∧
      addInterval none i6 now s = Except.error ActionErrorCode.UNAUTHORIZED ∧
      listIntervals none i7 s = Except.error ActionErrorCode.UNAUTHORIZED := by
  intros
  exact ⟨rfl, rfl, rfl, rfl, rfl, rfl, rfl⟩

/-! ### C6 -/

/-- C6: `updatePreset` on an owned preset with no optional field supplied
succeeds, returns the existing row, and leaves the store (in particular the
stored row and its `updatedAt`) exactly as it was. -/
theorem C6_empty_update_is_identity
    (u : String) (input : UpdatePresetInput) (now : Int) (s : Store)
    (existing : Preset)
    (hname : input.name = none) (hfm : input.focusMinutes = none)
    (hsb : input.shortBreakMinutes = none) (hlb : input.longBreakMinutes = none)
    (hcb : input.cyclesBeforeLongBreak = none)
    (hcp : input.cyclesPerBlock = none) (hd : input.isDefault = none)
    (hfound : findOwnedPreset s.presets input.id u = some existing) :
    updatePreset (some u) input now s = Except.ok (some existing, s) := by
  show updatePresetAuthed u input now s = Except.ok (some existing, s)
  unfold updatePresetAuthed
  rw [hfound]
  simp only [truthyBool, updateDataIsEmpty, hname, hfm, hsb, hlb, hcb, hcp, hd,
    Option.getD_none, Option.isNone_none, Bool.and_self, if_true, if_false,
    Bool.false_eq_true]

/-- Witness for C6 at a concrete store and input. -/
theorem C6_empty_update_is_identity_witness :
    updatePreset (some "alice")
      { id := 1, name := none, focusMinutes := none, shortBreakMinutes := none,
        longBreakMinutes := none, cyclesBeforeLongBreak := none,
        cyclesPerBlock := none, isDefault := none } 42 demoStore =
      Except.ok (some demoPreset, demoStore) :=
  C6_empty_update_is_identity "alice" _ 42 demoStore demoPreset
    rfl rfl rfl rfl rfl rfl rfl (by decide)

/-! ### C4 -/

/-- C4: `completeSession`, `addInterval` and `listIntervals` resolve the
session by id AND `userId = caller`; when no such session exists (in
particular when the session belongs to another user) each fails with
`NOT_FOUND`; since the handler throws before its insert/update, no store
is produced and no write occurs. -/
theorem C4_session_ops_owner_scoped_not_found
    (u : String) (i : Int) (s : Store)
    (hmiss : findOwnedSession s.sessions i u = none) :
    (∀ (input : CompleteSessionInput) (now : Int), input.id = i →
      completeSession (some u) input now s =
        Except.error ActionErrorCode.NOT_FOUND) ∧
    (∀ (input : AddIntervalInput) (now : Int), input.sessionId = i →
      addInterval (some u) input now s =
        Except.error ActionErrorCode.NOT_FOUND) ∧
    (∀ (input : ListIntervalsInput), input.sessionId = i →
      listIntervals (some u) input s =
        Except.error ActionErrorCode.NOT_FOUND) := by
  refine ⟨fun input now h => ?_, fun input now h => ?_, fun input h => ?_⟩
  · show completeSessionAuthed u input now s = _
    unfold completeSessionAuthed
    rw [h, hmiss]
  · show addIntervalAuthed u input now s = _
    unfold addIntervalAuthed
    rw [h, hmiss]
  · show listIntervalsAuthed u input s = _
    unfold listIntervalsAuthed
    rw [h, hmiss]

/-- Witness for C4: `demoStore`'s only session (id 1) belongs to
`"alice"`, so `"bob"`'s calls on session 1 all fail `NOT_FOUND`. -/
theorem C4_session_ops_owner_scoped_not_found_witness :
    completeSession (some "bob")
      { id := 1, actualFocusMinutes := none, actualBreakMinutes := none,
        completedCycles := none, status := none, meta := none } 9 demoStore =
      Except.error ActionErrorCode.NOT_FOUND ∧
    addInterval (some "bob")
      { sessionId := 1, type := none, startedAt := none, endedAt := none,
        durationSeconds := none, completed := none } 9 demoStore =
      Except.error ActionErrorCode.NOT_FOUND ∧
    listIntervals (some "bob") { sessionId := 1 } demoStore =
      Except.error ActionErrorCode.NOT_FOUND := by
  have h := C4_session_ops_owner_scoped_not_found "bob" 1 demoStore (by decide)
  exact ⟨h.1 _ 9 rfl, h.2.1 _ 9 rfl, h.2.2 _ rfl⟩

/-! ### C3 -/

/-- C3 counterexample: the handler guards the preset lookup with the JS
truthiness check `if (input.presetId)`, so `presetId = 0` — which resolves
to no preset at all, let alone one owned by the caller (first conjunct) —
skips the ownership check: the call succeeds and inserts a session row
with `presetId = 0` instead of failing with `NOT_FOUND`. -/
theorem C3_counterexample_presetId_zero :
    demoStore.presets.filter (fun p => p.id == (0 : Int)) = [] ∧
    startSession (some "alice")
      { presetId := some 0, label := none, plannedFocusMinutes := none,
        plannedCycles := none, meta := none } 3 demoStore =
      Except.ok
        ({ id := 2, userId := "alice", presetId := some 0, label := none,
           plannedFocusMinutes := none, actualFocusMinutes := 0,
           actualBreakMinutes := 0, plannedCycles := none,
           completedCycles := 0, status := SessionStatus.in_progress,
           startedAt := 3, endedAt := none, meta := none },
         { demoStore with
             sessions := demoStore.sessions ++
               [{ id := 2, userId := "alice", presetId := some 0, label := none,
                  plannedFocusMinutes := none, actualFocusMinutes := 0,
                  actualBreakMinutes := 0, plannedCycles := none,
                  completedCycles := 0, status := SessionStatus.in_progress,
                  startedAt := 3, endedAt := none, meta := none }],
             nextSessionId := 3 }) :=
  ⟨by decide, rfl⟩

/-- C3 amended: if `startSession` is called with a nonzero `presetId` that
does not resolve to a preset with that id owned by the caller, the call
fails with `NOT_FOUND` and, the handler throwing before its insert, no
session row is created; a supplied `presetId` of 0 is treated as absent by
the JS truthiness check. -/
theorem C3_amended_nonzero_bad_presetId_not_found
    (u : String) (pid : Int) (input : StartSessionInput) (now : Int) (s : Store)
    (hpid : input.presetId = some pid) (hnz : pid ≠ 0)
    (hmiss : findOwnedPreset s.presets pid u = none) :
    startSession (some u) input now s = Except.error ActionErrorCode.NOT_FOUND := by
  show startSessionAuthed u input now s = _
  unfold startSessionAuthed
  rw [hpid]
  have ht : truthyInt (some pid) = true := by simp [truthyInt, hnz]
  rw [ht]
  simp only [Option.getD_some, if_true]
  rw [hmiss]

/-- Witness for C3 amended: preset 7 does not exist, so `"alice"` starting
a session from it fails `NOT_FOUND`. -/
theorem C3_amended_nonzero_bad_presetId_not_found_witness :
    startSession (some "alice")
      { presetId := some 7, label := none, plannedFocusMinutes := none,
        plannedCycles := none, meta := none } 3 demoStore =
      Except.error ActionErrorCode.NOT_FOUND :=
  C3_amended_nonzero_bad_presetId_not_found "alice" 7 _ 3 demoStore rfl
    (by decide) (by decide)

/-! ### C2 -/

/-- C2 counterexample: `completeSession` accepts `status = "in_progress"`
(the zod enum admits all three values) and never guards on the current
status.  Calling it with `status := in_progress` on an already-`completed`
session (first conjunct) moves the session out of a terminal state back to
`in_progress`, and sets `endedAt = some 9` while the status is
`in_progress` — refuting both halves of the claimed invariant. -/
theorem C2_counterexample_terminal_back_to_in_progress :
    demoDoneSession.status = SessionStatus.completed ∧
    completeSession (some "alice")
      { id := 1, actualFocusMinutes := none, actualBreakMinutes := none,
        completedCycles := none, status := some SessionStatus.in_progress,
        meta := none } 9 demoDoneStore =
      Except.ok
        (some { demoDoneSession with
                  status := SessionStatus.in_progress, endedAt := some 9 },
         { demoDoneStore with
             sessions := [{ demoDoneSession with
                              status := SessionStatus.in_progress,
                              endedAt := some 9 }] }) :=
  ⟨rfl, rfl⟩

/-- C2 amended: `completeSession` always sets `endedAt = now` and sets
`status` to the supplied value (default `completed`); nothing prevents
re-completing a terminal session or supplying `status = in_progress`.
Provided the caller does not supply `status = in_progress`, every session
row touched by `completeSession` ends in a terminal status with `endedAt`
set. -/
theorem C2_amended_complete_terminal_when_status_not_in_progress
    (u : String) (input : CompleteSessionInput) (now : Int) (s : Store)
    (sess : Session)
    (hst : input.status ≠ some SessionStatus.in_progress)
    (hfound : findOwnedSession s.sessions input.id u = some sess) :
    ∃ r s', completeSession (some u) input now s = Except.ok (r, s') ∧
      ∀ x ∈ s'.sessions, x.id = input.id →
        x.status ≠ SessionStatus.in_progress ∧ x.endedAt = some now := by
  have hc : completeSession (some u) input now s =
      Except.ok
        (((s.sessions.map (fun x =>
            if x.id == input.id then completeRow input sess now x else x)).filter
              (fun x => x.id == input.id)).head?,
         { s with sessions := s.sessions.map (fun x =>
            if x.id == input.id then completeRow input sess now x else x) }) := by
    show completeSessionAuthed u input now s = _
    unfold completeSessionAuthed
    rw [hfound]
  refine ⟨_, _, hc, ?_⟩
  intro x hx hid
  rcases List.mem_map.mp hx with ⟨y, hy, hxy⟩
  by_cases hyid : (y.id == input.id) = true
  · rw [if_pos hyid] at hxy
    subst hxy
    refine ⟨?_, rfl⟩
    show (input.status.getD SessionStatus.completed) ≠ SessionStatus.in_progress
    cases hs : input.status with
    | none => simp
    | some c =>
      simp only [Option.getD_some]
      intro hh
      exact hst (by rw [hs, hh])
  · rw [if_neg hyid] at hxy
    subst hxy
    exact absurd (beq_iff_eq.mpr hid) hyid

/-- Witness for C2 amended: completing `demoStore`'s in-progress session
without a supplied status leaves it terminal with `endedAt` set. -/
theorem C2_amended_complete_terminal_witness :
    ∃ r s', completeSession (some "alice")
      { id := 1, actualFocusMinutes := none, actualBreakMinutes := none,
        completedCycles := none, status := none, meta := none } 5 demoStore =
      Except.ok (r, s') ∧
      ∀ x ∈ s'.sessions, x.id = (1 : Int) →
        x.status ≠ SessionStatus.in_progress ∧ x.endedAt = some 5 :=
  C2_amended_complete_terminal_when_status_not_in_progress "alice" _ 5 demoStore
    demoSession (by simp) (by decide)

/-! ### C5 -/

/-- C5: on an owned session (in a table with pairwise-distinct session
ids, as a primary key guarantees), `completeSession` with
`actualFocusMinutes`, `actualBreakMinutes`, `completedCycles` and `meta`
all absent returns the session with those four fields exactly equal to
their prior values, `status` set to the supplied value or `completed` when
absent, and `endedAt` always set to `now`. -/
theorem C5_complete_absent_fields_preserved
    (u : String) (input : CompleteSessionInput) (now : Int) (s : Store)
    (sess : Session)
    (hafm : input.actualFocusMinutes = none)
    (habm : input.actualBreakMinutes = none)
    (hcc : input.completedCycles = none) (hmeta : input.meta = none)
    (hnd : (s.sessions.map Session.id).Nodup)
    (hfound : findOwnedSession s.sessions input.id u = some sess) :
    ∃ s', completeSession (some u) input now s =
      Except.ok
        (some { sess with status := input.status.getD SessionStatus.completed,
                          endedAt := some now }, s') := by
  have hc : completeSession (some u) input now s =
      Except.ok
        (((s.sessions.map (fun x =>
            if x.id == input.id then completeRow input sess now x else x)).filter
              (fun x => x.id == input.id)).head?,
         { s with sessions := s.sessions.map (fun x =>
            if x.id == input.id then completeRow input sess now x else x) }) := by
    show completeSessionAuthed u input now s = _
    unfold completeSessionAuthed
    rw [hfound]
  have hsid : (sess.id == input.id) = true := by
    have h2 := (findOwnedSession_some hfound).2
    simp only [Bool.and_eq_true] at h2
    exact h2.1
  have hfl : List.filter (fun x => x.id == input.id) s.sessions = [sess] :=
    filter_key_eq_of_nodup Session.id (fun x => x.userId == u) s.sessions
      input.id sess hnd hfound
  have hhead : ((s.sessions.map (fun x =>
      if x.id == input.id then completeRow input sess now x else x)).filter
        (fun x => x.id == input.id)).head? =
      some (completeRow input sess now sess) := by
    rw [List.filter_map]
    have hco : List.filter ((fun x => x.id == input.id) ∘ (fun x =>
        if x.id == input.id then completeRow input sess now x else x)) s.sessions =
        List.filter (fun x => x.id == input.id) s.sessions := by
      apply List.filter_congr
      intro x _
      simp only [Function.comp_apply]
      split <;> rfl
    rw [hco, hfl]
    simp only [List.map_cons, List.map_nil, List.head?_cons, Option.some.injEq]
    rw [if_pos hsid]
  have hrow : completeRow input sess now sess =
      { sess with status := input.status.getD SessionStatus.completed,
                  endedAt := some now } := by
    simp [completeRow, hafm, habm, hcc, hmeta, mergeOpt]
  refine ⟨{ s with sessions := s.sessions.map (fun x =>
      if x.id == input.id then completeRow input sess now x else x) }, ?_⟩
  rw [hc, hhead, hrow]

/-- Witness for C5: completing `demoStore`'s session with no counters
supplied keeps `actualFocusMinutes = 7`, `actualBreakMinutes = 2`,
`completedCycles = 1` and `meta` as they were. -/
theorem C5_complete_absent_fields_preserved_witness :
    ∃ s', completeSession (some "alice")
      { id := 1, actualFocusMinutes := none, actualBreakMinutes := none,
        completedCycles := none, status := none, meta := none } 5 demoStore =
      Except.ok
        (some { demoSession with status := SessionStatus.completed,
                                 endedAt := some 5 }, s') :=
  C5_complete_absent_fields_preserved "alice" _ 5 demoStore demoSession
    rfl rfl rfl rfl (by decide) (by decide)

/-! ### C10 -/

/-- C10: on an owned session, `completeSession` leaves `id`, `userId`,
`presetId`, `label`, `plannedFocusMinutes`, `plannedCycles` and
`startedAt` of every row it touches unchanged, leaves every session row
with a different id entirely unchanged (position by position), and leaves
the preset and interval tables and all id counters unchanged. -/
theorem C10_complete_session_frame
    (u : String) (input : CompleteSessionInput) (now : Int) (s : Store)
    (sess : Session)
    (hfound : findOwnedSession s.sessions input.id u = some sess) :
    ∃ r s', completeSession (some u) input now s = Except.ok (r, s') ∧
      s'.presets = s.presets ∧
      s'.intervals = s.intervals ∧
      s'.nextPresetId = s.nextPresetId ∧
      s'.nextSessionId = s.nextSessionId ∧
      s'.nextIntervalId = s.nextIntervalId ∧
      s'.sessions.length = s.sessions.length ∧
      ∀ (i : Nat) (x : Session), s.sessions[i]? = some x →
        ∃ x', s'.sessions[i]? = some x' ∧
          x'.id = x.id ∧ x'.userId = x.userId ∧ x'.presetId = x.presetId ∧
          x'.label = x.label ∧
          x'.plannedFocusMinutes = x.plannedFocusMinutes ∧
          x'.plannedCycles = x.plannedCycles ∧
          x'.startedAt = x.startedAt ∧
          (x.id ≠ input.id → x' = x) := by
  have hc : completeSession (some u) input now s =
      Except.ok
        (((s.sessions.map (fun x =>
            if x.id == input.id then completeRow input sess now x else x)).filter
              (fun x => x.id == input.id)).head?,
         { s with sessions := s.sessions.map (fun x =>
            if x.id == input.id then completeRow input sess now x else x) }) := by
    show completeSessionAuthed u input now s = _
    unfold completeSessionAuthed
    rw [hfound]
  refine ⟨_, _, hc, rfl, rfl, rfl, rfl, rfl, by simp, ?_⟩
  intro i x hx
  by_cases hb : (x.id == input.id) = true
  · refine ⟨completeRow input sess now x, ?_, rfl, rfl, rfl, rfl, rfl, rfl, rfl, ?_⟩
    · simp only [List.getElem?_map, hx, Option.map_some', if_pos hb]
    · intro hne
      exact absurd (beq_iff_eq.mp hb) hne
  · refine ⟨x, ?_, rfl, rfl, rfl, rfl, rfl, rfl, rfl, fun _ => rfl⟩
    simp only [List.getElem?_map, hx, Option.map_some', if_neg hb]

/-- Witness for C10 at `demoStore`. -/
theorem C10_complete_session_frame_witness :
    ∃ r s', completeSession (some "alice")
      { id := 1, actualFocusMinutes := some 23, actualBreakMinutes := none,
        completedCycles := none, status := none, meta := none } 5 demoStore =
      Except.ok (r, s') ∧
      s'.presets = demoStore.presets ∧
      s'.intervals = demoStore.intervals ∧
      s'.nextPresetId = demoStore.nextPresetId ∧
      s'.nextSessionId = demoStore.nextSessionId ∧
      s'.nextIntervalId = demoStore.nextIntervalId ∧
      s'.sessions.length = demoStore.sessions.length ∧
      ∀ (i : Nat) (x : Session), demoStore.sessions[i]? = some x →
        ∃ x', s'.sessions[i]? = some x' ∧
          x'.id = x.id ∧ x'.userId = x.userId ∧ x'.presetId = x.presetId ∧
          x'.label = x.label ∧
          x'.plannedFocusMinutes = x.plannedFocusMinutes ∧
          x'.plannedCycles = x.plannedCycles ∧
          x'.startedAt = x.startedAt ∧
          (x.id ≠ (1 : Int) → x' = x) :=
  C10_complete_session_frame "alice" _ 5 demoStore demoSession (by decide)

/-! ### C9 -/

/-- C9: `createPreset` with `isDefault = true` by a caller with at least
one existing preset sets `isDefault := false` AND `updatedAt := now` on
every existing preset of the caller — the clearing `where` clause filters
on `ownerId` only, so presets whose `isDefault` was already `false` also
get their `updatedAt` refreshed — and then appends the new (default) row
at the end of the table. -/
theorem C9_create_default_rewrites_all_owner_presets
    (u : String) (input : CreatePresetInput) (now : Int) (s : Store)
    (hd : input.isDefault = some true)
    (_hhas : ∃ p ∈ s.presets, p.ownerId = u) :
    ∃ q s', createPreset (some u) input now s = Except.ok (q, s') ∧
      q.isDefault = true ∧
      s'.presets.length = s.presets.length + 1 ∧
      (∀ (i : Nat) (x : Preset), s.presets[i]? = some x →
        s'.presets[i]? = some (if x.ownerId = u
          then { x with isDefault := false, updatedAt := now } else x)) ∧
      s'.presets[s.presets.length]? = some q := by
  have hc : createPreset (some u) input now s =
      Except.ok (newPresetRow u input now s.nextPresetId,
        { s with
            presets := clearOwnerDefaults u now s.presets ++
              [newPresetRow u input now s.nextPresetId],
            nextPresetId := s.nextPresetId + 1 }) := by
    show createPresetAuthed u input now s = _
    unfold createPresetAuthed
    rw [hd]
    rfl
  have hlen : (clearOwnerDefaults u now s.presets).length = s.presets.length := by
    simp [clearOwnerDefaults]
  refine ⟨_, _, hc, by simp [newPresetRow, hd], by simp [clearOwnerDefaults], ?_, ?_⟩
  · intro i x hx
    have hi : i < s.presets.length := by
      rcases List.getElem?_eq_some.mp hx with ⟨h, _⟩
      exact h
    show (clearOwnerDefaults u now s.presets ++
        [newPresetRow u input now s.nextPresetId])[i]? = _
    rw [List.getElem?_append_left (by rw [hlen]; exact hi)]
    simp only [clearOwnerDefaults, List.getElem?_map, hx, Option.map_some']
    by_cases ho : x.ownerId = u
    · simp [ho]
    · simp [ho]
  · show (clearOwnerDefaults u now s.presets ++
        [newPresetRow u input now s.nextPresetId])[s.presets.length]? = _
    rw [List.getElem?_append_right (by rw [hlen])]
    simp [hlen]

/-- Witness for C9: creating a second default preset for `"alice"` clears
and touches the already-existing `demoPreset`. -/
theorem C9_create_default_rewrites_all_owner_presets_witness :
    ∃ q s', createPreset (some "alice")
      { name := "Deep Work", focusMinutes := some 50,
        shortBreakMinutes := none, longBreakMinutes := none,
        cyclesBeforeLongBreak := none, cyclesPerBlock := none,
        isDefault := some true } 8 demoStore = Except.ok (q, s') ∧
      q.isDefault = true ∧
      s'.presets.length = demoStore.presets.length + 1 ∧
      (∀ (i : Nat) (x : Preset), demoStore.presets[i]? = some x →
        s'.presets[i]? = some (if x.ownerId = "alice"
          then { x with isDefault := false, updatedAt := 8 } else x)) ∧
      s'.presets[demoStore.presets.length]? = some q :=
  C9_create_default_rewrites_all_owner_presets "alice" _ 8 demoStore rfl
    ⟨demoPreset, by decide⟩

/-! ### C7 -/

/-- Updating a row that the `updatePreset` clearing step may have just
cleared gives the same result as updating the original row, because with
`isDefault` supplied as `true` the update overwrites both fields the
clearing touched. -/
theorem applyPresetUpdate_absorb_clear (input : UpdatePresetInput) (u : String)
    (now : Int) (p : Preset) (hd : input.isDefault = some true) :
    applyPresetUpdate input now
      (if p.ownerId == u && p.isDefault then
        { p with isDefault := false, updatedAt := now }
      else p) = applyPresetUpdate input now p := by
  split
  · simp [applyPresetUpdate, hd]
  · rfl

/-- C7: `updatePreset` on an owned preset with at least one field supplied
returns (and stores) a row where each supplied field takes the supplied
value, each absent field keeps the prior value, `updatedAt` is refreshed
to `now`, and `id`, `ownerId`, `createdAt` are untouched. -/
theorem C7_partial_update_only_supplied_fields
    (u : String) (input : UpdatePresetInput) (now : Int) (s : Store)
    (existing : Preset)
    (hfound : findOwnedPreset s.presets input.id u = some existing)
    (hne : updateDataIsEmpty input = false) :
    ∃ p' s', updatePreset (some u) input now s = Except.ok (some p', s') ∧
      p'.id = existing.id ∧ p'.ownerId = existing.ownerId ∧
      p'.createdAt = existing.createdAt ∧
      p'.name = input.name.getD existing.name ∧
      p'.focusMinutes = input.focusMinutes.getD existing.focusMinutes ∧
      p'.shortBreakMinutes = input.shortBreakMinutes.getD existing.shortBreakMinutes ∧
      p'.longBreakMinutes = mergeOpt input.longBreakMinutes existing.longBreakMinutes ∧
      p'.cyclesBeforeLongBreak =
        mergeOpt input.cyclesBeforeLongBreak existing.cyclesBeforeLongBreak ∧
      p'.cyclesPerBlock = mergeOpt input.cyclesPerBlock existing.cyclesPerBlock ∧
      p'.isDefault = input.isDefault.getD existing.isDefault ∧
      p'.updatedAt = now := by
  have hpred : (existing.id == input.id && existing.ownerId == u) = true :=
    (findOwnedPreset_some hfound).2
  have hidup : ∀ p : Preset,
      ((if p.id == input.id && p.ownerId == u then applyPresetUpdate input now p
        else p) : Preset).id = p.id := by
    intro p; split <;> rfl
  have hownup : ∀ p : Preset,
      ((if p.id == input.id && p.ownerId == u then applyPresetUpdate input now p
        else p) : Preset).ownerId = p.ownerId := by
    intro p; split <;> rfl
  by_cases htr : truthyBool input.isDefault = true
  · have hd : input.isDefault = some true := by
      cases h : input.isDefault with
      | none => rw [h] at htr; simp [truthyBool] at htr
      | some b =>
        cases b with
        | false => rw [h] at htr; simp [truthyBool] at htr
        | true => rfl
    have hidca : ∀ p : Preset,
        ((if p.ownerId == u && p.isDefault then
            { p with isDefault := false, updatedAt := now }
          else p) : Preset).id = p.id := by
      intro p; split <;> rfl
    have hownca : ∀ p : Preset,
        ((if p.ownerId == u && p.isDefault then
            { p with isDefault := false, updatedAt := now }
          else p) : Preset).ownerId = p.ownerId := by
      intro p; split <;> rfl
    have hc : updatePreset (some u) input now s =
        Except.ok
          (findOwnedPreset
            (applyUpdateWhere input u now (clearOwnerActiveDefaults u now s.presets))
            input.id u,
           { s with
              presets := applyUpdateWhere input u now
                           (clearOwnerActiveDefaults u now s.presets) }) := by
      show updatePresetAuthed u input now s = _
      unfold updatePresetAuthed
      rw [hfound, htr, hne]
      rfl
    have hcond : (((if existing.ownerId == u && existing.isDefault then
          { existing with isDefault := false, updatedAt := now }
        else existing) : Preset).id == input.id &&
        ((if existing.ownerId == u && existing.isDefault then
          { existing with isDefault := false, updatedAt := now }
        else existing) : Preset).ownerId == u) = true := by
      rw [hidca existing, hownca existing]; exact hpred
    have h1 : findOwnedPreset
        (applyUpdateWhere input u now (clearOwnerActiveDefaults u now s.presets))
        input.id u = some (applyPresetUpdate input now existing) := by
      unfold applyUpdateWhere clearOwnerActiveDefaults
      rw [findOwnedPreset_map _ hidup hownup, findOwnedPreset_map _ hidca hownca,
        hfound]
      simp only [Option.map_some']
      rw [if_pos hcond, applyPresetUpdate_absorb_clear input u now existing hd]
    refine ⟨applyPresetUpdate input now existing,
      { s with
          presets := applyUpdateWhere input u now
                       (clearOwnerActiveDefaults u now s.presets) },
      ?_, rfl, rfl, rfl, rfl, rfl, rfl, rfl, rfl, rfl, rfl, rfl⟩
    rw [hc, h1]
  · have hf : truthyBool input.isDefault = false := by
      cases h : truthyBool input.isDefault with
      | false => rfl
      | true => exact absurd h htr
    have hc : updatePreset (some u) input now s =
        Except.ok
          (findOwnedPreset (applyUpdateWhere input u now s.presets) input.id u,
           { s with presets := applyUpdateWhere input u now s.presets }) := by
      show updatePresetAuthed u input now s = _
      unfold updatePresetAuthed
      rw [hfound, hf, hne]
      rfl
    have h1 : findOwnedPreset (applyUpdateWhere input u now s.presets) input.id u =
        some (applyPresetUpdate input now existing) := by
      unfold applyUpdateWhere
      rw [findOwnedPreset_map _ hidup hownup, hfound]
      simp only [Option.map_some']
      rw [if_pos hpred]
    refine ⟨applyPresetUpdate input now existing,
      { s with presets := applyUpdateWhere input u now s.presets },
      ?_, rfl, rfl, rfl, rfl, rfl, rfl, rfl, rfl, rfl, rfl, rfl⟩
    rw [hc, h1]

/-- Witness for C7: renaming `demoPreset` and supplying a long break keeps
every other field and refreshes `updatedAt`. -/
theorem C7_partial_update_only_supplied_fields_witness :
    ∃ p' s', updatePreset (some "alice")
      { id := 1, name := some "Renamed", focusMinutes := none,
        shortBreakMinutes := none, longBreakMinutes := some 15,
        cyclesBeforeLongBreak := none, cyclesPerBlock := none,
        isDefault := none } 9 demoStore = Except.ok (some p', s') ∧
      p'.id = demoPreset.id ∧ p'.ownerId = demoPreset.ownerId ∧
      p'.createdAt = demoPreset.createdAt ∧
      p'.name = "Renamed" ∧
      p'.focusMinutes = demoPreset.focusMinutes ∧
      p'.shortBreakMinutes = demoPreset.shortBreakMinutes ∧
      p'.longBreakMinutes = some 15 ∧
      p'.cyclesBeforeLongBreak = demoPreset.cyclesBeforeLongBreak ∧
      p'.cyclesPerBlock = demoPreset.cyclesPerBlock ∧
      p'.isDefault = demoPreset.isDefault ∧
      p'.updatedAt = 9 :=
  C7_partial_update_only_supplied_fields "alice" _ 9 demoStore demoPreset
    (by decide) (by decide)

/-! ### C1 -/

theorem map_id_rowMap (g : Preset → Preset) (hid : ∀ p, (g p).id = p.id)
    (l : List Preset) : (l.map g).map Preset.id = l.map Preset.id := by
  rw [List.map_map]
  exact List.map_congr_left (fun p _ => hid p)

theorem clearOwnerDefaults_map_id (u : String) (now : Int) (l : List Preset) :
    (clearOwnerDefaults u now l).map Preset.id = l.map Preset.id := by
  unfold clearOwnerDefaults
  exact map_id_rowMap _ (fun p => by split <;> rfl) l

theorem clearOwnerActiveDefaults_map_id (u : String) (now : Int)
    (l : List Preset) :
    (clearOwnerActiveDefaults u now l).map Preset.id = l.map Preset.id := by
  unfold clearOwnerActiveDefaults
  exact map_id_rowMap _ (fun p => by split <;> rfl) l

theorem applyUpdateWhere_map_id (input : UpdatePresetInput) (u : String)
    (now : Int) (l : List Preset) :
    (applyUpdateWhere input u now l).map Preset.id = l.map Preset.id := by
  unfold applyUpdateWhere
  exact map_id_rowMap _ (fun p => by split <;> rfl) l

theorem defaultCount_append (u : String) (l₁ l₂ : List Preset) :
    defaultCount u (l₁ ++ l₂) = defaultCount u l₁ + defaultCount u l₂ := by
  unfold defaultCount
  exact List.countP_append _ l₁ l₂

/-- The `createPreset` clearing step leaves the owner with zero default
presets. -/
theorem defaultCount_clearOwnerDefaults (u : String) (now : Int)
    (l : List Preset) : defaultCount u (clearOwnerDefaults u now l) = 0 := by
  unfold defaultCount clearOwnerDefaults
  rw [List.countP_map, List.countP_eq_zero]
  intro p _
  simp only [Function.comp_apply]
  split
  · simp
  · next h =>
    simp only [Bool.and_eq_true]
    rintro ⟨h1, h2⟩
    exact h (by simp [h1, h2])

/-- The `updatePreset` clearing step leaves the owner with zero default
presets. -/
theorem defaultCount_clearOwnerActiveDefaults (u : String) (now : Int)
    (l : List Preset) :
    defaultCount u (clearOwnerActiveDefaults u now l) = 0 := by
  unfold defaultCount clearOwnerActiveDefaults
  rw [List.countP_map, List.countP_eq_zero]
  intro p _
  simp only [Function.comp_apply]
  split
  · simp
  · next h => exact h

theorem defaultCount_singleton_le (u : String) (p : Preset) :
    defaultCount u [p] ≤ 1 := by
  unfold defaultCount
  rw [List.countP_cons, List.countP_nil]
  split <;> omega

/-- One `createPreset` call preserves primary-key well-formedness and the
at-most-one-default invariant. -/
theorem createStep_preserves (u : String) (input : CreatePresetInput)
    (now : Int) (s : Store) (hwf : presetTableWF s)
    (hinv : defaultCount u s.presets ≤ 1) :
    presetTableWF (runPresetOp u s (PresetOp.create input now)) ∧
    defaultCount u (runPresetOp u s (PresetOp.create input now)).presets ≤ 1 := by
  have hrun : runPresetOp u s (PresetOp.create input now) =
      { s with
          presets := (if truthyBool input.isDefault then
                       clearOwnerDefaults u now s.presets
                     else s.presets) ++
                     [newPresetRow u input now s.nextPresetId],
          nextPresetId := s.nextPresetId + 1 } := rfl
  rw [hrun]
  have hids : ((if truthyBool input.isDefault then
      clearOwnerDefaults u now s.presets else s.presets).map Preset.id) =
      s.presets.map Preset.id := by
    split
    · exact clearOwnerDefaults_map_id u now s.presets
    · rfl
  refine ⟨⟨?_, ?_⟩, ?_⟩
  · show (((if truthyBool input.isDefault then clearOwnerDefaults u now s.presets
        else s.presets) ++ [newPresetRow u input now s.nextPresetId]).map
          Preset.id).Nodup
    rw [List.map_append, hids, List.nodup_append]
    refine ⟨hwf.1, List.nodup_singleton _, ?_⟩
    intro a ha hb
    rcases List.mem_map.mp ha with ⟨p, hp, hpi⟩
    have hlt := hwf.2 p hp
    simp only [List.map_cons, List.map_nil, List.mem_singleton] at hb
    have hnid : (newPresetRow u input now s.nextPresetId).id = s.nextPresetId := rfl
    omega
  · show ∀ p ∈ (if truthyBool input.isDefault then
        clearOwnerDefaults u now s.presets else s.presets) ++
        [newPresetRow u input now s.nextPresetId],
      p.id < s.nextPresetId + 1
    intro p hp
    rcases List.mem_append.mp hp with h | h
    · have hpid : p.id ∈ s.presets.map Preset.id := by
        rw [← hids]
        exact List.mem_map_of_mem _ h
      rcases List.mem_map.mp hpid with ⟨q, hq, hqe⟩
      have := hwf.2 q hq
      omega
    · have hpe : p = newPresetRow u input now s.nextPresetId := by simpa using h
      rw [hpe]
      show s.nextPresetId < s.nextPresetId + 1
      omega
  · show defaultCount u ((if truthyBool input.isDefault then
        clearOwnerDefaults u now s.presets else s.presets) ++
        [newPresetRow u input now s.nextPresetId]) ≤ 1
    rw [defaultCount_append]
    cases htr : truthyBool input.isDefault with
    | true =>
      rw [if_pos rfl, defaultCount_clearOwnerDefaults]
      have := defaultCount_singleton_le u (newPresetRow u input now s.nextPresetId)
      omega
    | false =>
      rw [if_neg (by simp)]
      have hnd : (newPresetRow u input now s.nextPresetId).isDefault = false := by
        cases h : input.isDefault with
        | none => simp [newPresetRow, h]
        | some b =>
          cases b with
          | true => rw [h] at htr; simp [truthyBool] at htr
          | false => simp [newPresetRow, h]
      have h1 : defaultCount u [newPresetRow u input now s.nextPresetId] = 0 := by
        unfold defaultCount
        rw [List.countP_cons, List.countP_nil]
        simp [hnd]
      omega

/-- If the owner currently has zero defaults and ids are distinct, the
`updatePreset` write (which can set `isDefault := true` on the matched
row) leaves at most one default. -/
theorem defaultCount_applyUpdateWhere_of_zero (input : UpdatePresetInput)
    (u : String) (now : Int) (l : List Preset)
    (hz : defaultCount u l = 0) (hnd : (l.map Preset.id).Nodup) :
    defaultCount u (applyUpdateWhere input u now l) ≤ 1 := by
  unfold defaultCount at hz ⊢
  unfold applyUpdateWhere
  rw [List.countP_map]
  refine le_trans (List.countP_mono_left ?_)
    (countP_key_le_one Preset.id l hnd input.id)
  intro p hp hpred
  simp only [Function.comp_apply] at hpred
  by_cases hm : (p.id == input.id && p.ownerId == u) = true
  · simp only [Bool.and_eq_true] at hm
    exact hm.1
  · rw [if_neg hm] at hpred
    exact absurd hpred (List.countP_eq_zero.mp hz p hp)

/-- When `isDefault` is not supplied as `true`, the `updatePreset` write
cannot increase the owner's number of defaults. -/
theorem defaultCount_applyUpdateWhere_mono (input : UpdatePresetInput)
    (u : String) (now : Int) (l : List Preset)
    (hnt : input.isDefault ≠ some true) :
    defaultCount u (applyUpdateWhere input u now l) ≤ defaultCount u l := by
  unfold defaultCount applyUpdateWhere
  rw [List.countP_map]
  apply List.countP_mono_left
  intro p hp hpred
  simp only [Function.comp_apply] at hpred
  by_cases hm : (p.id == input.id && p.ownerId == u) = true
  · rw [if_pos hm] at hpred
    have hown : (applyPresetUpdate input now p).ownerId = p.ownerId := rfl
    have hdef : (applyPresetUpdate input now p).isDefault =
        input.isDefault.getD p.isDefault := rfl
    rw [hown, hdef] at hpred
    cases h : input.isDefault with
    | none =>
      rw [h] at hpred
      simpa using hpred
    | some b =>
      cases b with
      | true => exact absurd h hnt
      | false =>
        rw [h] at hpred
        simp at hpred
  · rw [if_neg hm] at hpred
    exact hpred

/-- One `updatePreset` call preserves primary-key well-formedness and the
at-most-one-default invariant. -/
theorem updateStep_preserves (u : String) (input : UpdatePresetInput)
    (now : Int) (s : Store) (hwf : presetTableWF s)
    (hinv : defaultCount u s.presets ≤ 1) :
    presetTableWF (runPresetOp u s (PresetOp.update input now)) ∧
    defaultCount u (runPresetOp u s (PresetOp.update input now)).presets ≤ 1 := by
  cases hfind : findOwnedPreset s.presets input.id u with
  | none =>
    have he : updatePreset (some u) input now s =
        Except.error ActionErrorCode.NOT_FOUND := by
      show updatePresetAuthed u input now s = _
      unfold updatePresetAuthed
      rw [hfind]
    have hrun : runPresetOp u s (PresetOp.update input now) = s := by
      show (match updatePreset (some u) input now s with
        | Except.ok (_, s2) => s2
        | Except.error _ => s) = s
      rw [he]
    rw [hrun]
    exact ⟨hwf, hinv⟩
  | some existing =>
    cases hemp : updateDataIsEmpty input with
    | true =>
      have hupd : updatePreset (some u) input now s =
          Except.ok (some existing,
            { s with presets := if truthyBool input.isDefault then
                clearOwnerActiveDefaults u now s.presets else s.presets }) := by
        show updatePresetAuthed u input now s = _
        unfold updatePresetAuthed
        rw [hfind, hemp]
        rfl
      have hrun : runPresetOp u s (PresetOp.update input now) =
          { s with presets := if truthyBool input.isDefault then
              clearOwnerActiveDefaults u now s.presets else s.presets } := by
        show (match updatePreset (some u) input now s with
          | Except.ok (_, s2) => s2
          | Except.error _ => s) = _
        rw [hupd]
      rw [hrun]
      have hids : ((if truthyBool input.isDefault then
          clearOwnerActiveDefaults u now s.presets else s.presets).map
            Preset.id) = s.presets.map Preset.id := by
        split
        · exact clearOwnerActiveDefaults_map_id u now s.presets
        · rfl
      refine ⟨⟨?_, ?_⟩, ?_⟩
      · show ((if truthyBool input.isDefault then
            clearOwnerActiveDefaults u now s.presets else s.presets).map
              Preset.id).Nodup
        rw [hids]
        exact hwf.1
      · show ∀ p ∈ (if truthyBool input.isDefault then
            clearOwnerActiveDefaults u now s.presets else s.presets),
          p.id < s.nextPresetId
        intro p hp
        have hpid : p.id ∈ s.presets.map Preset.id := by
          rw [← hids]
          exact List.mem_map_of_mem _ hp
        rcases List.mem_map.mp hpid with ⟨q, hq, hqe⟩
        have := hwf.2 q hq
        omega
      · show defaultCount u (if truthyBool input.isDefault then
            clearOwnerActiveDefaults u now s.presets else s.presets) ≤ 1
        split
        · rw [defaultCount_clearOwnerActiveDefaults]
          omega
        · exact hinv
    | false =>
      have hupd : updatePreset (some u) input now s =
          Except.ok (findOwnedPreset (applyUpdateWhere input u now
              (if truthyBool input.isDefault then
                clearOwnerActiveDefaults u now s.presets else s.presets))
              input.id u,
            { s with
                presets := applyUpdateWhere input u now
                             (if truthyBool input.isDefault then
                               clearOwnerActiveDefaults u now s.presets
                             else s.presets) }) := by
        show updatePresetAuthed u input now s = _
        unfold updatePresetAuthed
        rw [hfind, hemp]
        rfl
      have hrun : runPresetOp u s (PresetOp.update input now) =
          { s with
              presets := applyUpdateWhere input u now
                           (if truthyBool input.isDefault then
                             clearOwnerActiveDefaults u now s.presets
                           else s.presets) } := by
        show (match updatePreset (some u) input now s with
          | Except.ok (_, s2) => s2
          | Except.error _ => s) = _
        rw [hupd]
      rw [hrun]
      have hids : ((applyUpdateWhere input u now
          (if truthyBool input.isDefault then
            clearOwnerActiveDefaults u now s.presets else s.presets)).map
              Preset.id) = s.presets.map Preset.id := by
        rw [applyUpdateWhere_map_id]
        split
        · exact clearOwnerActiveDefaults_map_id u now s.presets
        · rfl
      refine ⟨⟨?_, ?_⟩, ?_⟩
      · show ((applyUpdateWhere input u now
            (if truthyBool input.isDefault then
              clearOwnerActiveDefaults u now s.presets else s.presets)).map
                Preset.id).Nodup
        rw [hids]
        exact hwf.1
      · show ∀ p ∈ applyUpdateWhere input u now
            (if truthyBool input.isDefault then
              clearOwnerActiveDefaults u now s.presets else s.presets),
          p.id < s.nextPresetId
        intro p hp
        have hpid : p.id ∈ s.presets.map Preset.id := by
          rw [← hids]
          exact List.mem_map_of_mem _ hp
        rcases List.mem_map.mp hpid with ⟨q, hq, hqe⟩
        have := hwf.2 q hq
        omega
      · show defaultCount u (applyUpdateWhere input u now
            (if truthyBool input.isDefault then
              clearOwnerActiveDefaults u now s.presets else s.presets)) ≤ 1
        cases hd : input.isDefault with
        | none =>
          rw [if_neg (show ¬ truthyBool (none : Option Bool) = true by
            simp [truthyBool])]
          exact le_trans
            (defaultCount_applyUpdateWhere_mono input u now s.presets
              (by simp [hd])) hinv
        | some b =>
          cases b with
          | true =>
            rw [if_pos (show truthyBool (some true) = true from rfl)]
            refine defaultCount_applyUpdateWhere_of_zero input u now _
              (defaultCount_clearOwnerActiveDefaults u now s.presets) ?_
            rw [clearOwnerActiveDefaults_map_id]
            exact hwf.1
          | false =>
            rw [if_neg (show ¬ truthyBool (some false) = true by
              simp [truthyBool])]
            exact le_trans
              (defaultCount_applyUpdateWhere_mono input u now s.presets
                (by simp [hd])) hinv

/-- C1: starting from a store satisfying the at-most-one-default
invariant (and primary-key well-formedness of the preset table, which the
store guarantees), any sequence of `createPreset` / `updatePreset` calls
made by user `u` leaves `u` with at most one preset having
`isDefault = true`. -/
theorem C1_at_most_one_default_preset
    (u : String) (s : Store) (ops : List PresetOp)
    (hwf : presetTableWF s) (hinv : defaultCount u s.presets ≤ 1) :
    defaultCount u (runPresetOps u s ops).presets ≤ 1 := by
  induction ops generalizing s with
  | nil => exact hinv
  | cons op rest ih =>
    have hstep : presetTableWF (runPresetOp u s op) ∧
        defaultCount u (runPresetOp u s op).presets ≤ 1 := by
      cases op with
      | create input now => exact createStep_preserves u input now s hwf hinv
      | update input now => exact updateStep_preserves u input now s hwf hinv
    show defaultCount u (List.foldl (runPresetOp u) s (op :: rest)).presets ≤ 1
    rw [List.foldl_cons]
    exact ih (runPresetOp u s op) hstep.1 hstep.2

/-- Witness for C1: `"alice"` creates a second default preset and then
makes preset 1 default again; she still has at most one default. -/
theorem C1_at_most_one_default_preset_witness :
    defaultCount "alice" (runPresetOps "alice" demoStore
      [PresetOp.create demoCreateDeepWork 8,
       PresetOp.update demoUpdateMakeDefault 9]).presets ≤ 1 :=
  C1_at_most_one_default_preset "alice" demoStore _
    ⟨by decide, by decide⟩ (by decide)

end StudyTimer
